import Mathlib

/-!
Verification of the invocation classifier and dual-mode dispatcher in
`hmalib/lambdas/api/api_root.py` (hasher-matcher-actioner).

The Python code is shallowly embedded: JSON-ish values are modelled by
`JVal`, Python's `in` / `[]` / iteration semantics by `pyContains`,
`getItem` and `pyIter` (raising is modelled with `Except PyErr`), and the
side effect of submitting a request to the pipeline is modelled by the
list of requests submitted so far, threaded through the record loop.
-/

set_option autoImplicit false

namespace HmaApiRoot

/-- A JSON-like value, the shape of an AWS Lambda invocation payload.
Objects are association lists of string keys (JSON object keys are
strings); `num` covers the integer sizes appearing in S3 notifications. -/
inductive JVal where
  | null
  | bool (b : Bool)
  | num (n : Int)
  | str (s : String)
  | arr (items : List JVal)
  | obj (fields : List (String × JVal))

/-- A Python exception as far as this code can raise one: `KeyError`
(missing dict key) or `TypeError` (operation applied to a value of the
wrong type). -/
inductive PyErr where
  | keyError (k : String)
  | typeError
  deriving DecidableEq, Repr

/-- First value bound to key `k` in an association list (Python dict keys
are unique, so first match is the dict lookup). -/
def lookupField (k : String) : List (String × JVal) → Option JVal
  | [] => none
  | (k₀, v) :: rest => if k₀ = k then some v else lookupField k rest

/-- Python `d[k]` for a string key `k`: dict lookup raising `KeyError`
when the key is absent; on any non-dict value a string index raises
`TypeError`. -/
def getItem (v : JVal) (k : String) : Except PyErr JVal :=
  match v with
  | .obj fields =>
    match lookupField k fields with
    | some w => .ok w
    | none => .error (.keyError k)
  | _ => .error .typeError

/-- Whether the character sequence `needle` occurs contiguously inside
`hay` (Python substring containment for `str in str`). -/
def strHasSub (needle : List Char) : List Char → Bool
  | [] => needle.isEmpty
  | c :: rest => needle.isPrefixOf (c :: rest) || strHasSub needle rest

/-- Python equality of a JSON value against a string (the only equality
`in` needs on list elements here): only a `str` can equal a string. -/
def eqPyStr (v : JVal) (s : String) : Bool :=
  match v with
  | .str t => t = s
  | _ => false

/-- Python `k in v` for a string `k`: key membership for a dict, element
equality for a list, substring test for a string; on `None`, booleans and
numbers membership raises `TypeError`. -/
def pyContains (k : String) (v : JVal) : Except PyErr Bool :=
  match v with
  | .obj fields => .ok (fields.any (fun p => p.1 = k))
  | .arr items => .ok (items.any (fun w => eqPyStr w k))
  | .str s => .ok (strHasSub k.data s.data)
  | _ => .error .typeError

/-- Python iteration `for x in v`: a list yields its elements, a string
its characters (as one-character strings), a dict its keys; `None`,
booleans and numbers are not iterable (`TypeError`). -/
def pyIter (v : JVal) : Except PyErr (List JVal) :=
  match v with
  | .arr items => .ok items
  | .str s => .ok (s.data.map (fun c => .str (String.singleton c)))
  | .obj fields => .ok (fields.map (fun p => .str p.1))
  | _ => .error .typeError

/-- Python `v == 0`: true for the number `0` and for `False` (Python
booleans are numbers); every other JSON value compares unequal to `0`. -/
def eqPyZero (v : JVal) : Bool :=
  match v with
  | .num n => n = 0
  | .bool b => !b
  | _ => false

/-- Result of `all("s3" in record for record in records)`: short-circuits
on the first `False`, and a membership `TypeError` on an element
propagates (the generator is evaluated left to right). -/
def allContainS3 : List JVal → Except PyErr Bool
  | [] => .ok true
  | r :: rest =>
    match pyContains "s3" r with
    | .error e => .error e
    | .ok false => .ok false
    | .ok true => allContainS3 rest

/-- Embedding of `is_s3_event(event)`:
`"Records" in event and all("s3" in record for record in event["Records"])`.
The `and` short-circuits, so `event["Records"]` is only evaluated when the
membership test succeeded and returned `True`. -/
def is_s3_event (event : JVal) : Except PyErr Bool :=
  match pyContains "Records" event with
  | .error e => .error e
  | .ok false => .ok false
  | .ok true =>
    match getItem event "Records" with
    | .error e => .error e
    | .ok recs =>
      match pyIter recs with
      | .error e => .error e
      | .ok items => allContainS3 items

/-- The value returned by the URL-signing collaborator, represented by the
parameters of the call that minted it. Modelled from the spec: the body of
`create_presigned_url` lives in `submit.py`, outside the analysed source;
the spec gives its interface as
`createPresignedURL(bucket, key, versionId, expirySeconds, operation) -> URL`. -/
structure PresignedUrl where
  bucket : String
  key : String
  versionId : Option String
  expirySeconds : Nat
  operation : String
  deriving DecidableEq, Repr

/-- Modelled from the spec: the URL-signing collaborator
`createPresignedURL(bucket, key, versionId, expirySeconds, operation)`;
the issued URL is identified with the parameters it was scoped to. -/
def create_presigned_url (bucket key : String) (versionId : Option String)
    (expirySeconds : Nat) (operation : String) : PresignedUrl :=
  ⟨bucket, key, versionId, expirySeconds, operation⟩

/-- Embedding of the `SubmitContentRequestBody` constructor call made by
the translator (fields named as at the call site in `api_root.py`). -/
structure SubmitContentRequestBody where
  submission_type : String
  content_id : String
  content_type : String
  content_bytes_url_or_file_type : PresignedUrl
  additional_fields : Option (List (String × String))
  deriving DecidableEq, Repr

/-- The chained lookup `record["bucket"]["name"]` (errors propagate in
evaluation order). -/
def bucketNameOf (record : JVal) : Except PyErr JVal :=
  match getItem record "bucket" with
  | .error e => .error e
  | .ok b => getItem b "name"

/-- The chained lookup `record["object"]["key"]`. -/
def objectKeyOf (record : JVal) : Except PyErr JVal :=
  match getItem record "object" with
  | .error e => .error e
  | .ok o => getItem o "key"

/-- Embedding of `submit_content_request_from_s3_event_record(record)`:
`bucket = record["bucket"]["name"]`, `key = record["object"]["key"]`,
`content_id = bucket + "/" + key`, then a presigned GET URL with a 3600
second expiry and no version id. A missing key raises `KeyError`; string
concatenation with a non-string raises `TypeError`. -/
def submit_content_request_from_s3_event_record (record : JVal) :
    Except PyErr SubmitContentRequestBody :=
  match bucketNameOf record with
  | .error e => .error e
  | .ok bv =>
    match objectKeyOf record with
    | .error e => .error e
    | .ok kv =>
      match bv, kv with
      | .str bucket, .str key =>
        let content_id := bucket ++ "/" ++ key
        let url := create_presigned_url bucket key none 3600 "get_object"
        .ok { submission_type := "FROM_URL"
              content_id := content_id
              content_type := "PHOTO"
              content_bytes_url_or_file_type := url
              additional_fields := none }
      | _, _ => .error .typeError

/-- One iteration of the `process_s3_event` loop body on a raw record:
`record = record["s3"]`, skip when `record["object"]["size"] == 0`,
otherwise translate the record into a submission request. `some req`
means `submit_from_url` was called with `req`; `none` means the record
was skipped. -/
def recordStep (record : JVal) : Except PyErr (Option SubmitContentRequestBody) :=
  match getItem record "s3" with
  | .error e => .error e
  | .ok s3rec =>
    match getItem s3rec "object" with
    | .error e => .error e
    | .ok o =>
      match getItem o "size" with
      | .error e => .error e
      | .ok size =>
        if eqPyZero size then .ok none
        else
          match submit_content_request_from_s3_event_record s3rec with
          | .error e => .error e
          | .ok req => .ok (some req)

/-- The `for record in event["Records"]` loop: returns the submissions
made (in order) and, when an iteration raised, the uncaught exception.
Submissions made before the raising record are real side effects and are
kept; the loop has no `try`, so nothing after the raise runs. -/
def processRecords : List JVal → List SubmitContentRequestBody × Option PyErr
  | [] => ([], none)
  | r :: rest =>
    match recordStep r with
    | .error e => ([], some e)
    | .ok none => processRecords rest
    | .ok (some req) =>
      let (subs, err) := processRecords rest
      (req :: subs, err)

/-- Embedding of `process_s3_event(event)` (the Python function returns
`None`; its observable outcome is the submission trace and the uncaught
exception, if any). -/
def process_s3_event (event : JVal) : List SubmitContentRequestBody × Option PyErr :=
  match getItem event "Records" with
  | .error e => ([], some e)
  | .ok recs =>
    match pyIter recs with
    | .error e => ([], some e)
    | .ok items => processRecords items

/-- Observable outcome of one `lambda_handler` invocation: the storage
branch ran to completion with the given submissions, or the HTTP branch
returned the router's response, or an exception escaped the handler
(carrying the submissions already made before the raise). -/
inductive LambdaResult (ρ : Type) where
  | s3Done (submissions : List SubmitContentRequestBody)
  | http (resp : ρ)
  | raised (e : PyErr) (submissionsBeforeRaise : List SubmitContentRequestBody)

/-- Embedding of `lambda_handler(event, context)`. The bottle/apig-wsgi
HTTP router is an external collaborator, abstracted as `router`; the
storage branch returns `None` to the platform, so its result is the
submission trace. -/
def lambda_handler {ρ : Type} (router : JVal → ρ) (event : JVal) : LambdaResult ρ :=
  match is_s3_event event with
  | .error e => .raised e []
  | .ok true =>
    match process_s3_event event with
    | (subs, none) => .s3Done subs
    | (subs, some e) => .raised e subs
  | .ok false => .http (router event)

/-- The spec's classification rule, in the spec's words: the payload
contains a "Records" collection and every element of that collection
contains an "s3" sub-record key. Written from the spec for comparison
with `is_s3_event`, which is written from the source. -/
def specIsS3Batch (event : JVal) : Bool :=
  match event with
  | .obj fields =>
    match lookupField "Records" fields with
    | some (.arr items) =>
      items.all (fun r =>
        match r with
        | .obj rf => rf.any (fun p => p.1 = "s3")
        | _ => false)
    | _ => false
  | _ => false

/-- Python `json.dumps` on a flat dict of strings, with the default
separators: `\x7b"k": "v", ...\x7d`. -/
def dictToJson (fields : List (String × String)) : String :=
  "\x7b" ++ String.intercalate ", "
    (fields.map (fun p => "\"" ++ p.1 ++ "\": \"" ++ p.2 ++ "\"")) ++ "\x7d"

/-- The bottle `HTTPError` value handed to an error handler: the status
and a description of the triggering condition (used only for logging). -/
structure HTTPError where
  status : Nat
  message : String

/-- Embedding of the `@error(404)` handler `error404(e)`: sets
`response.content_type` to `application/json` and returns
`json.dumps(\x7b"error": "404"\x7d)`; the error value is only logged.
The result is the `(content_type, body)` pair. -/
def error404 (_e : HTTPError) : String × String :=
  ("application/json", dictToJson [("error", "404")])

/-- Embedding of the `@error(405)` handler `error405(e)`. -/
def error405 (_e : HTTPError) : String × String :=
  ("application/json", dictToJson [("error", "405")])

/-- Embedding of the `@error(500)` handler `error500(e)`. -/
def error500 (_e : HTTPError) : String × String :=
  ("application/json", dictToJson [("error", "500")])

/-- The dict returned by the `@app.get("/")` handler `root()`. -/
def root : List (String × String) := [("message", "Hello World, HMA")]

/-- An HTTP request as seen by the router: method and path. -/
structure HttpRequest where
  method : String
  path : String

/-- An HTTP response: status, declared content type and body. -/
structure HttpResponse where
  status : Nat
  content_type : String
  body : String
  deriving DecidableEq, Repr

/-- The path prefixes mounted on the bottle app in `api_root.py`, in
mount order. -/
def mountedPrefixes : List String :=
  ["/action-rules/", "/matches/", "/content/", "/submit/", "/datasets/",
   "/stats/", "/actions/"]

/-- Modelled from the spec: the HTTP Router (bottle with the apig-wsgi
adapter is an external collaborator; only the routes registered in
`api_root.py` are repository code). `GET /` runs `root()` and a handler
returning a dict is rendered as JSON with status 200; another verb on a
matched route yields the 405 error body; a request under a mounted prefix
is owned by that sub-application (abstracted as `subApps`); any other
path yields the 404 error body. -/
def route (subApps : String → HttpRequest → HttpResponse)
    (req : HttpRequest) : HttpResponse :=
  if req.path = "/" then
    if req.method = "GET" then
      ⟨200, "application/json", dictToJson root⟩
    else
      ⟨405, (error405 ⟨405, req.method⟩).1, (error405 ⟨405, req.method⟩).2⟩
  else
    match mountedPrefixes.find? (fun p => p.isPrefixOf req.path) with
    | some p => subApps p req
    | none => ⟨404, (error404 ⟨404, req.path⟩).1, (error404 ⟨404, req.path⟩).2⟩

/-- The submissions the loop body would make for a list of records, each
considered in isolation (used to state what a batch yields up to the
first failing record). -/
def submissionsOf (records : List JVal) : List SubmitContentRequestBody :=
  records.filterMap (fun r =>
    match recordStep r with
    | .ok (some req) => some req
    | _ => none)

/-- Whether a string is free of the `/` separator (S3 bucket names are). -/
def noSlash (s : String) : Bool :=
  s.data.all (fun c => c ≠ '/')

/-- Whether the loop body runs a record without raising. -/
def stepOk (record : JVal) : Bool :=
  match recordStep record with
  | .ok _ => true
  | .error _ => false

/-- The `s3` sub-record of the spec scenario: bucket `imgs`, key `a.jpg`,
size 1234. -/
def sampleS3Sub : JVal :=
  .obj [("bucket", .obj [("name", .str "imgs")]),
        ("object", .obj [("key", .str "a.jpg"), ("size", .num 1234)])]

/-- A raw notification record wrapping `sampleS3Sub`. -/
def sampleRecord : JVal := .obj [("s3", sampleS3Sub)]

/-- A malformed record: it has an `s3` sub-record (so the event still
classifies as a storage batch) but the sub-record lacks `object`, so its
iteration raises `KeyError("object")`. -/
def malformedRecord : JVal :=
  .obj [("s3", .obj [("bucket", .obj [("name", .str "b2")])])]

/-- A third well-formed record (bucket `b3`, key `k3`, size 7). -/
def thirdRecord : JVal :=
  .obj [("s3", .obj [("bucket", .obj [("name", .str "b3")]),
        ("object", .obj [("key", .str "k3"), ("size", .num 7)])])]

/-- A record whose object size is zero (a folder marker). -/
def zeroRecord : JVal :=
  .obj [("s3", .obj [("bucket", .obj [("name", .str "b0")]),
        ("object", .obj [("key", .str "k0"), ("size", .num 0)])])]

/-- The spec scenario event: a single well-formed record. -/
def sampleEvent : JVal := .obj [("Records", .arr [sampleRecord])]

/-- A batch of three records whose second is malformed. -/
def batchEvent : JVal :=
  .obj [("Records", .arr [sampleRecord, malformedRecord, thirdRecord])]

/-- The submission request the translator produces for `sampleS3Sub`. -/
def sampleRequest : SubmitContentRequestBody :=
  { submission_type := "FROM_URL"
    content_id := "imgs/a.jpg"
    content_type := "PHOTO"
    content_bytes_url_or_file_type :=
      { bucket := "imgs", key := "a.jpg", versionId := none,
        expirySeconds := 3600, operation := "get_object" }
    additional_fields := none }

/-- `sampleS3Sub` with the same bucket name and object key but a
different size and extra metadata fields. -/
def sampleS3SubVariant : JVal :=
  .obj [("awsRegion", .str "us-east-1"),
        ("bucket", .obj [("name", .str "imgs")]),
        ("object", .obj [("key", .str "a.jpg"), ("size", .num 999),
                         ("eTag", .str "abc")])]

/-- A record translates to the fully determined request once its bucket
name and object key lookups are known to be the strings `b` and `k`. -/
lemma submit_request_eval (record bv ov : JVal) (b k : String)
    (hb : getItem record "bucket" = .ok bv)
    (hbn : getItem bv "name" = .ok (.str b))
    (ho : getItem record "object" = .ok ov)
    (hk : getItem ov "key" = .ok (.str k)) :
    submit_content_request_from_s3_event_record record =
      .ok { submission_type := "FROM_URL"
            content_id := b ++ "/" ++ k
            content_type := "PHOTO"
            content_bytes_url_or_file_type :=
              create_presigned_url b k none 3600 "get_object"
            additional_fields := none } := by
  simp [submit_content_request_from_s3_event_record, bucketNameOf,
    objectKeyOf, hb, hbn, ho, hk]

/-- A key that `lookupField` finds is a member of the association list. -/
lemma lookupField_some_any (k : String) :
    ∀ (fields : List (String × JVal)) (v : JVal),
      lookupField k fields = some v → fields.any (fun p => p.1 = k) = true
  | [], _, h => by simp [lookupField] at h
  | (k₀, w) :: rest, v, h => by
    rw [List.any_cons]
    by_cases hp : k₀ = k
    · rw [show decide ((k₀, w).1 = k) = true from by simp [hp]]
      rfl
    · rw [lookupField, if_neg hp] at h
      rw [lookupField_some_any k rest v h, Bool.or_true]

/-- `all("s3" in record ...)` succeeds with `True` on a list of objects
that all carry an `"s3"` key. -/
lemma allContainS3_ok_true (items : List JVal)
    (h : items.all (fun r =>
      match r with
      | JVal.obj rf => rf.any (fun p => p.1 = "s3")
      | _ => false) = true) :
    allContainS3 items = .ok true := by
  induction items with
  | nil => rfl
  | cons r rest ih =>
    rw [List.all_cons, Bool.and_eq_true] at h
    obtain ⟨h1, h2⟩ := h
    cases r with
    | obj rf =>
      have h1' : (rf.any fun p => decide (p.1 = "s3")) = true := h1
      simp only [allContainS3, pyContains]
      rw [h1']
      exact ih h2
    | null => exact Bool.noConfusion h1
    | bool b => exact Bool.noConfusion h1
    | num n => exact Bool.noConfusion h1
    | str s => exact Bool.noConfusion h1
    | arr a => exact Bool.noConfusion h1

/-- Lists concatenated around an explicit `'/'` separator are uniquely
decomposable when the prefixes avoid the separator. -/
lemma slash_lists_inj : ∀ (b₁ b₂ k₁ k₂ : List Char),
    (∀ c ∈ b₁, c ≠ '/') → (∀ c ∈ b₂, c ≠ '/') →
    b₁ ++ '/' :: k₁ = b₂ ++ '/' :: k₂ → b₁ = b₂ ∧ k₁ = k₂
  | [], [], k₁, k₂, _, _, h => ⟨rfl, (List.cons.inj h).2⟩
  | [], c :: b₂, k₁, k₂, _, h₂, h => by
    obtain ⟨hc, -⟩ := List.cons.inj h
    exact absurd hc.symm (h₂ c (List.mem_cons_self c b₂))
  | c :: b₁, [], k₁, k₂, h₁, _, h => by
    obtain ⟨hc, -⟩ := List.cons.inj h
    exact absurd hc (h₁ c (List.mem_cons_self c b₁))
  | c₁ :: b₁, c₂ :: b₂, k₁, k₂, h₁, h₂, h => by
    obtain ⟨hc, hrest⟩ := List.cons.inj h
    obtain ⟨hb, hk⟩ := slash_lists_inj b₁ b₂ k₁ k₂
      (fun x hx => h₁ x (List.mem_cons_of_mem c₁ hx))
      (fun x hx => h₂ x (List.mem_cons_of_mem c₂ hx)) hrest
    exact ⟨by rw [hc, hb], hk⟩

/-- Character data of `b ++ "/" ++ k`. -/
lemma data_slash_concat (b k : String) :
    (b ++ "/" ++ k).data = b.data ++ '/' :: k.data := by
  rw [String.data_append, String.data_append, List.append_assoc]
  rfl

/-- Concatenation around `"/"` is injective as long as the left parts
avoid `/`. -/
lemma slash_concat_inj (b₁ k₁ b₂ k₂ : String)
    (h₁ : noSlash b₁ = true) (h₂ : noSlash b₂ = true)
    (h : b₁ ++ "/" ++ k₁ = b₂ ++ "/" ++ k₂) : b₁ = b₂ ∧ k₁ = k₂ := by
  have hb₁ : ∀ c ∈ b₁.data, c ≠ '/' := by
    simpa [noSlash, List.all_eq_true] using h₁
  have hb₂ : ∀ c ∈ b₂.data, c ≠ '/' := by
    simpa [noSlash, List.all_eq_true] using h₂
  have hd : b₁.data ++ '/' :: k₁.data = b₂.data ++ '/' :: k₂.data := by
    have h' := congrArg String.data h
    rwa [data_slash_concat, data_slash_concat] at h'
  obtain ⟨hb, hk⟩ := slash_lists_inj _ _ _ _ hb₁ hb₂ hd
  exact ⟨String.ext hb, String.ext hk⟩

/-- C3 (amended): for every storage record with bucket `B` and key `K`
the derived content identifier is exactly `B ++ "/" ++ K`; the derivation
is injective on `(bucket, key)` pairs whose bucket names contain no `/`
(raw concatenation is not injective in general, see the counterexample). -/
theorem content_id_concat_and_conditional_injective :
    (∀ (record bv ov : JVal) (b k : String) (req : SubmitContentRequestBody),
      getItem record "bucket" = .ok bv →
      getItem bv "name" = .ok (.str b) →
      getItem record "object" = .ok ov →
      getItem ov "key" = .ok (.str k) →
      submit_content_request_from_s3_event_record record = .ok req →
      req.content_id = b ++ "/" ++ k) ∧
    (∀ b₁ k₁ b₂ k₂ : String, noSlash b₁ = true → noSlash b₂ = true →
      b₁ ++ "/" ++ k₁ = b₂ ++ "/" ++ k₂ → b₁ = b₂ ∧ k₁ = k₂) := by
  refine ⟨?_, slash_concat_inj⟩
  intro record bv ov b k req hb hbn ho hk h
  rw [submit_request_eval record bv ov b k hb hbn ho hk] at h
  cases Except.ok.inj h
  rfl

/-- C3 witness: the content identifier of the spec scenario record is
`imgs/a.jpg`, and the conditional injectivity applies to slash-free
bucket names (with a slash allowed in the key). -/
theorem content_id_concat_witness :
    sampleRequest.content_id = "imgs" ++ "/" ++ "a.jpg" ∧
    ("imgs" = "imgs" ∧ "x/y.jpg" = "x/y.jpg") :=
  ⟨content_id_concat_and_conditional_injective.1 sampleS3Sub
      (.obj [("name", .str "imgs")])
      (.obj [("key", .str "a.jpg"), ("size", .num 1234)])
      "imgs" "a.jpg" sampleRequest rfl rfl rfl rfl rfl,
   content_id_concat_and_conditional_injective.2
      "imgs" "x/y.jpg" "imgs" "x/y.jpg" rfl rfl rfl⟩

/-- C3 counterexample: the records `(bucket "a/b", key "c")` and
`(bucket "a", key "b/c")` differ in both bucket and key, yet both derive
the content identifier `"a/b/c"`: the derivation is not injective on all
`(bucket, key)` pairs. -/
theorem content_id_collision :
    Except.map (fun r => r.content_id)
      (submit_content_request_from_s3_event_record
        (.obj [("bucket", .obj [("name", .str "a/b")]),
               ("object", .obj [("key", .str "c")])])) = .ok "a/b/c" ∧
    Except.map (fun r => r.content_id)
      (submit_content_request_from_s3_event_record
        (.obj [("bucket", .obj [("name", .str "a")]),
               ("object", .obj [("key", .str "b/c")])])) = .ok "a/b/c" ∧
    ("a/b" ≠ "a" ∧ "c" ≠ "b/c") :=
  ⟨rfl, rfl, by decide⟩

/-- C5: for every well-formed storage record the translator produces a
request with submission type `FROM_URL`, content type `PHOTO`, no
additional fields, and a presigned read-only (`get_object`) URL for
`(bucket, key)` with the fixed expiry 3600 seconds (the caller passes no
expiry; the constant is hard-wired at the call site). -/
theorem translator_request_shape (record bv ov : JVal) (b k : String)
    (hb : getItem record "bucket" = .ok bv)
    (hbn : getItem bv "name" = .ok (.str b))
    (ho : getItem record "object" = .ok ov)
    (hk : getItem ov "key" = .ok (.str k)) :
    submit_content_request_from_s3_event_record record =
      .ok { submission_type := "FROM_URL"
            content_id := b ++ "/" ++ k
            content_type := "PHOTO"
            content_bytes_url_or_file_type :=
              create_presigned_url b k none 3600 "get_object"
            additional_fields := none } :=
  submit_request_eval record bv ov b k hb hbn ho hk

/-- C5 witness: the spec scenario record (bucket `imgs`, key `a.jpg`,
size 1234) translates to exactly `sampleRequest`. -/
theorem translator_request_shape_witness :
    submit_content_request_from_s3_event_record sampleS3Sub =
      .ok sampleRequest :=
  translator_request_shape sampleS3Sub
    (.obj [("name", .str "imgs")])
    (.obj [("key", .str "a.jpg"), ("size", .num 1234)])
    "imgs" "a.jpg" rfl rfl rfl rfl

/-- C9: every request the translator produces carries a URL whose
`versionId` argument is `none`: the call site always passes `None` for
the version, so the URL refers to the latest object version. -/
theorem presigned_url_no_version_id (record : JVal)
    (req : SubmitContentRequestBody)
    (h : submit_content_request_from_s3_event_record record = .ok req) :
    req.content_bytes_url_or_file_type.versionId = none := by
  cases hb : bucketNameOf record with
  | error e =>
    simp only [submit_content_request_from_s3_event_record, hb] at h
    exact Except.noConfusion h
  | ok bv =>
    simp only [submit_content_request_from_s3_event_record, hb] at h
    cases hk : objectKeyOf record with
    | error e => rw [hk] at h; exact Except.noConfusion h
    | ok kv =>
      rw [hk] at h
      cases bv <;> cases kv <;> try exact Except.noConfusion h
      case str.str b k =>
        cases Except.ok.inj h
        rfl

/-- C9 witness: the URL in the request for the scenario record has no
version id. -/
theorem presigned_url_no_version_id_witness :
    sampleRequest.content_bytes_url_or_file_type.versionId = none :=
  presigned_url_no_version_id sampleS3Sub sampleRequest rfl

/-- C10: two records that agree on the lookups `record["bucket"]["name"]`
and `record["object"]["key"]` translate to requests with the same content
identifier, submission type, content type and additional fields: the
translator reads nothing else from the record. -/
theorem translator_depends_only_on_bucket_and_key (r₁ r₂ : JVal)
    (hb : bucketNameOf r₁ = bucketNameOf r₂)
    (hk : objectKeyOf r₁ = objectKeyOf r₂)
    (req₁ req₂ : SubmitContentRequestBody)
    (h₁ : submit_content_request_from_s3_event_record r₁ = .ok req₁)
    (h₂ : submit_content_request_from_s3_event_record r₂ = .ok req₂) :
    req₁.content_id = req₂.content_id ∧
    req₁.submission_type = req₂.submission_type ∧
    req₁.content_type = req₂.content_type ∧
    req₁.additional_fields = req₂.additional_fields := by
  have he : submit_content_request_from_s3_event_record r₁ =
      submit_content_request_from_s3_event_record r₂ := by
    unfold submit_content_request_from_s3_event_record
    rw [hb, hk]
  rw [he, h₂] at h₁
  cases Except.ok.inj h₁
  exact ⟨rfl, rfl, rfl, rfl⟩

/-- C10 witness: `sampleS3Sub` and a variant with a different size and
extra metadata agree on bucket and key, and their requests agree on all
four fields. -/
theorem translator_depends_only_on_bucket_and_key_witness :
    sampleRequest.content_id = sampleRequest.content_id ∧
    sampleRequest.submission_type = sampleRequest.submission_type ∧
    sampleRequest.content_type = sampleRequest.content_type ∧
    sampleRequest.additional_fields = sampleRequest.additional_fields :=
  translator_depends_only_on_bucket_and_key sampleS3Sub sampleS3SubVariant
    rfl rfl sampleRequest sampleRequest rfl rfl

/-- C4: a record whose object size is zero is skipped entirely: the loop
body returns without translating or submitting, and the batch outcome
with the record present equals the outcome without it. -/
theorem zero_size_record_skipped (record s3v ov : JVal)
    (hs : getItem record "s3" = .ok s3v)
    (ho : getItem s3v "object" = .ok ov)
    (hz : getItem ov "size" = .ok (.num 0)) :
    recordStep record = .ok none ∧
    ∀ rest : List JVal, processRecords (record :: rest) = processRecords rest := by
  have h1 : recordStep record = .ok none := by
    simp only [recordStep, hs, ho, hz, eqPyZero]
    rfl
  refine ⟨h1, fun rest => ?_⟩
  simp only [processRecords, h1]

/-- C4 witness: the concrete zero-size record is skipped and contributes
nothing to a batch. -/
theorem zero_size_record_skipped_witness :
    recordStep zeroRecord = .ok none ∧
    processRecords [zeroRecord] = processRecords [] :=
  have h := zero_size_record_skipped zeroRecord
    (.obj [("bucket", .obj [("name", .str "b0")]),
           ("object", .obj [("key", .str "k0"), ("size", .num 0)])])
    (.obj [("key", .str "k0"), ("size", .num 0)]) rfl rfl rfl
  ⟨h.1, h.2 []⟩

/-- C6: each error responder declares content type `application/json`
and returns exactly the body `\x7b"error": "<code>"\x7d` for its status
code, whatever the triggering error value. -/
theorem error_responders_json (e : HTTPError) :
    error404 e = ("application/json", "\x7b\"error\": \"404\"\x7d") ∧
    error405 e = ("application/json", "\x7b\"error\": \"405\"\x7d") ∧
    error500 e = ("application/json", "\x7b\"error\": \"500\"\x7d") :=
  ⟨rfl, rfl, rfl⟩

/-- C7: a payload whose `Records` collection is empty is classified as a
storage-notification batch (the per-record check holds vacuously) and is
processed with zero iterations and zero submissions. -/
theorem empty_records_batch_noop {ρ : Type} (router : JVal → ρ)
    (fields : List (String × JVal))
    (h : lookupField "Records" fields = some (.arr [])) :
    is_s3_event (.obj fields) = .ok true ∧
    lambda_handler router (.obj fields) = .s3Done [] := by
  have hmem : fields.any (fun p => p.1 = "Records") = true :=
    lookupField_some_any "Records" fields _ h
  have hget : getItem (.obj fields) "Records" = .ok (.arr []) := by
    simp only [getItem, h]
  have his : is_s3_event (.obj fields) = .ok true := by
    simp only [is_s3_event, pyContains]
    rw [hmem, hget]
    rfl
  have hproc : process_s3_event (.obj fields) = ([], none) := by
    simp only [process_s3_event, hget, pyIter, processRecords]
  refine ⟨his, ?_⟩
  simp only [lambda_handler, his, hproc]

/-- C7 witness: the literal payload with an empty `Records` list. -/
theorem empty_records_batch_noop_witness :
    is_s3_event (.obj [("Records", .arr [])]) = .ok true ∧
    lambda_handler (fun ev => ev) (.obj [("Records", .arr [])]) = .s3Done [] :=
  empty_records_batch_noop (fun ev => ev) [("Records", .arr [])] rfl

/-- C8: an HTTP GET of the root path returns the static greeting
`\x7b"message": "Hello World, HMA"\x7d` with status 200, independent of
the mounted sub-applications. -/
theorem root_route_greeting (subApps : String → HttpRequest → HttpResponse) :
    route subApps { method := "GET", path := "/" } =
      { status := 200, content_type := "application/json",
        body := dictToJson root } ∧
    dictToJson root = "\x7b\"message\": \"Hello World, HMA\"\x7d" :=
  ⟨rfl, rfl⟩

/-- C1 (amended): the handler returns the router's response verbatim
exactly when the classification check evaluates without raising and
returns `False`; a payload satisfying the spec's well-formed batch
condition always takes the storage branch. (When the check raises — for
example when `Records` maps to a non-iterable — neither branch is taken:
the exception escapes, see the counterexample.) -/
theorem lambda_handler_branch_amended {ρ : Type} (router : JVal → ρ)
    (event : JVal) :
    (lambda_handler router event = .http (router event) ↔
      is_s3_event event = .ok false) ∧
    (specIsS3Batch event = true → is_s3_event event = .ok true) := by
  constructor
  · constructor
    · intro h
      cases he : is_s3_event event with
      | error e => simp [lambda_handler, he] at h
      | ok b =>
        cases b with
        | false => rfl
        | true =>
          simp only [lambda_handler, he] at h
          rcases hp : process_s3_event event with ⟨subs, err⟩
          rw [hp] at h
          cases err <;> simp at h
    · intro he
      simp [lambda_handler, he]
  · intro hs
    cases event with
    | obj fields =>
      rw [specIsS3Batch] at hs
      cases hl : lookupField "Records" fields with
      | none => rw [hl] at hs; exact Bool.noConfusion hs
      | some v =>
        rw [hl] at hs
        cases v with
        | arr items =>
          have hmem : fields.any (fun p => p.1 = "Records") = true :=
            lookupField_some_any "Records" fields _ hl
          have hget : getItem (.obj fields) "Records" = .ok (.arr items) := by
            simp only [getItem, hl]
          have hall : allContainS3 items = .ok true :=
            allContainS3_ok_true items hs
          simp only [is_s3_event, pyContains]
          rw [hmem, hget]
          simp only [pyIter]
          rw [hall]
        | null => exact Bool.noConfusion hs
        | bool b => exact Bool.noConfusion hs
        | num n => exact Bool.noConfusion hs
        | str s => exact Bool.noConfusion hs
        | obj f => exact Bool.noConfusion hs
    | null => exact Bool.noConfusion hs
    | bool b => exact Bool.noConfusion hs
    | num n => exact Bool.noConfusion hs
    | str s => exact Bool.noConfusion hs
    | arr a => exact Bool.noConfusion hs

/-- C1 witness: a payload without `Records` is routed verbatim, and the
spec scenario batch classifies as a storage notification. -/
theorem lambda_handler_branch_amended_witness :
    lambda_handler (fun ev => ev) (JVal.obj []) = .http (JVal.obj []) ∧
    is_s3_event sampleEvent = .ok true :=
  ⟨(lambda_handler_branch_amended (fun ev => ev) (JVal.obj [])).1.mpr rfl,
   (lambda_handler_branch_amended (fun ev => ev) sampleEvent).2 rfl⟩

/-- C1 counterexample: the payload `\x7b"Records": 5\x7d` does not
satisfy the spec's storage-batch condition, yet it is not passed to the
HTTP router either — iterating the non-iterable `Records` value raises a
`TypeError` that escapes the handler, so neither branch is taken. -/
theorem lambda_handler_records_noniterable_raises :
    specIsS3Batch (JVal.obj [("Records", JVal.num 5)]) = false ∧
    lambda_handler (fun ev => ev) (JVal.obj [("Records", JVal.num 5)]) =
      .raised .typeError [] ∧
    lambda_handler (fun ev => ev) (JVal.obj [("Records", JVal.num 5)]) ≠
      .http (JVal.obj [("Records", JVal.num 5)]) := by
  have hcomp : lambda_handler (fun ev => ev)
      (JVal.obj [("Records", JVal.num 5)]) =
      LambdaResult.raised PyErr.typeError [] := rfl
  exact ⟨rfl, hcomp, fun h => LambdaResult.noConfusion (hcomp.symm.trans h)⟩

/-- Unfolding of the loop at a record that is skipped. -/
lemma processRecords_cons_skip (a : JVal) (l : List JVal)
    (h : recordStep a = .ok none) :
    processRecords (a :: l) = processRecords l := by
  simp only [processRecords, h]

/-- Unfolding of the loop at a record that is submitted. -/
lemma processRecords_cons_sub (a : JVal) (l : List JVal)
    (req : SubmitContentRequestBody) (h : recordStep a = .ok (some req)) :
    processRecords (a :: l) =
      (req :: (processRecords l).1, (processRecords l).2) := by
  simp only [processRecords, h]

/-- C2 (amended): a record whose iteration raises aborts the rest of the
batch: the records before it are submitted, the exception propagates, and
no later record is processed. -/
theorem processRecords_failure_aborts_rest (pre : List JVal) (r : JVal)
    (rest : List JVal) (e : PyErr)
    (hpre : ∀ x ∈ pre, stepOk x = true)
    (hr : recordStep r = .error e) :
    processRecords (pre ++ r :: rest) = (submissionsOf pre, some e) := by
  induction pre with
  | nil =>
    simp only [List.nil_append, processRecords, hr, submissionsOf,
      List.filterMap_nil]
  | cons a pre ih =>
    have ha : stepOk a = true := hpre a (List.mem_cons_self a pre)
    have hpre' : ∀ x ∈ pre, stepOk x = true :=
      fun x hx => hpre x (List.mem_cons_of_mem a hx)
    cases hc : recordStep a with
    | error e₀ =>
      rw [stepOk, hc] at ha
      exact Bool.noConfusion ha
    | ok o =>
      cases o with
      | none =>
        have hsub : submissionsOf (a :: pre) = submissionsOf pre := by
          simp only [submissionsOf, List.filterMap_cons, hc]
        rw [List.cons_append, processRecords_cons_skip a _ hc, ih hpre', hsub]
      | some req =>
        have hsub : submissionsOf (a :: pre) = req :: submissionsOf pre := by
          simp only [submissionsOf, List.filterMap_cons, hc]
        rw [List.cons_append, processRecords_cons_sub a _ req hc, ih hpre', hsub]

/-- C2 witness: in the three-record batch with the malformed second
record, processing yields exactly the submissions of the first record and
the uncaught `KeyError`. -/
theorem processRecords_failure_aborts_rest_witness :
    processRecords ([sampleRecord] ++ malformedRecord :: [thirdRecord]) =
      (submissionsOf [sampleRecord], some (.keyError "object")) :=
  processRecords_failure_aborts_rest [sampleRecord] malformedRecord
    [thirdRecord] (.keyError "object")
    (by intro x hx; rw [List.mem_singleton] at hx; subst hx; rfl)
    rfl

/-- C2 counterexample: invoking the handler on the three-record batch
whose second record is malformed submits only the first record's request
and then raises `KeyError("object")` — no submission occurs for the third
record, so a single record's failure does abort the rest of the batch. -/
theorem lambda_handler_malformed_record_aborts_batch :
    lambda_handler (fun ev => ev) batchEvent =
      .raised (.keyError "object") [sampleRequest] :=
  rfl

end HmaApiRoot
